import Mathlib

/-
Verification of the air-traffic tracker's state-resolution and presentation
pipeline. The definitions below are a shallow embedding of the repository's
Python sources:
  - flight_core.py        (cache-less core: fetch, candidate selection,
                           region classification, comment generation,
                           timestamp formatting, list/track projections)
  - src/app.py            (serverless variant: snapshot fallback with a
                           provenance tag, positional state projection,
                           icao24 lookup)
Numbers are modelled as ℚ (the feed carries decimal JSON numbers), nullable
fields as Option, and the network/filesystem environment as explicit record
arguments. NaN cells of the pandas frame are modelled as missing (none).
-/

namespace Flight

/-- One row of the upstream /states/all feed (positional indices 0-13 of the
upstream array; the trailing sensors/squawk/spi/position_source slots are
never read by the repository and are omitted). -/
structure RawState where
  icao24 : Option String
  callsign : Option String
  origin_country : String
  time_position : Option Int
  last_contact : Option Int
  longitude : Option ℚ
  latitude : Option ℚ
  baro_altitude : Option ℚ
  on_ground : Option Bool
  velocity : Option ℚ
  heading : Option ℚ
  vertical_rate : Option ℚ
  geo_altitude : Option ℚ
deriving DecidableEq

/-- The upstream payload shape: a JSON object with a "time" field and a
"states" array. -/
structure Payload where
  time : Option Int
  states : List RawState
deriving DecidableEq

/-- The ways the live fetch can fail: request-level exception, timeout,
HTTP 429 rate limit, another HTTP error status, or any other exception
(for example a JSON decode error). Both variants catch all of these. -/
inductive FetchErr where
  | requestError
  | timeout
  | http429
  | httpError
  | other
deriving DecidableEq

/-- Outcome of one attempted live network fetch. -/
inductive FetchOutcome where
  | ok (data : Payload)
  | fail (e : FetchErr)
deriving DecidableEq

/-- Environment of one serverless invocation (src/app.py): the FORCE_SNAPSHOT
environment toggle, the snapshot file's contents when the file exists, and
the outcome the live fetch would have. -/
structure LambdaEnv where
  force_snapshot : Bool
  snapshot : Option Payload
  live : FetchOutcome
deriving DecidableEq

/-- load_snapshot of src/app.py: read the snapshot file when it exists,
otherwise return the synthesized payload with a null time and no states. -/
def load_snapshot (snap : Option Payload) : Payload :=
  match snap with
  | some d => d
  | none => { time := none, states := [] }

/-- fetch_opensky_or_snapshot of src/app.py: honour FORCE_SNAPSHOT, otherwise
try the live fetch and on any exception fall back to the snapshot; the second
component is the provenance tag. -/
def fetch_opensky_or_snapshot (env : LambdaEnv) : Payload × String :=
  if env.force_snapshot then (load_snapshot env.snapshot, "snapshot")
  else
    match env.live with
    | .ok data => (data, "live")
    | .fail _ => (load_snapshot env.snapshot, "snapshot")

/-- Environment of the flight_core.py variant: the USE_OFFLINE toggle, the
snapshot file's contents when present, and the live fetch outcome. -/
structure CoreEnv where
  use_offline : Bool
  snapshot : Option Payload
  live : FetchOutcome
deriving DecidableEq

/-- _raw_states_json of flight_core.py: offline mode reads the snapshot file
(None when it is missing); otherwise the live fetch's JSON, with every request
error, 429, and HTTP error mapped to None. -/
def raw_states_json (env : CoreEnv) : Option Payload :=
  if env.use_offline then env.snapshot
  else
    match env.live with
    | .ok d => some d
    | .fail _ => none

/-- fetch_opensky_states of flight_core.py, up to the DataFrame wrapper: a
None or empty payload becomes the empty frame, otherwise the rows are the
payload's states in feed order. -/
def fetch_opensky_states (env : CoreEnv) : List RawState :=
  match raw_states_json env with
  | none => []
  | some d => d.states

/-- MAX_LIST of flight_core.py. -/
def MAX_LIST : Nat := 30

/-- The ASCII whitespace stripped by Python str.strip(). -/
def is_space (c : Char) : Bool :=
  c == ' ' || c == '\t' || c == '\n' || c == '\x0d' || c == '\x0b' || c == '\x0c'

/-- Strip leading and trailing whitespace from a character list. -/
def trim_chars (l : List Char) : List Char :=
  ((l.dropWhile is_space).reverse.dropWhile is_space).reverse

/-- Python str.strip() (the feed's fields are ASCII, so the ASCII
whitespace set suffices). -/
def py_strip (s : String) : String := ⟨trim_chars s.data⟩

/-- Uppercase one ASCII character, as str.upper() does on the feed's
ASCII callsigns. -/
def upper_char (c : Char) : Char :=
  if 'a' ≤ c ∧ c ≤ 'z' then Char.ofNat (c.toNat - 32) else c

/-- Lowercase one ASCII character, as str.lower() does on the feed's
ASCII icao24 identifiers. -/
def lower_char (c : Char) : Char :=
  if 'A' ≤ c ∧ c ≤ 'Z' then Char.ofNat (c.toNat + 32) else c

/-- Python str.upper(). -/
def py_upper (s : String) : String := ⟨s.data.map upper_char⟩

/-- Python str.lower(). -/
def py_lower (s : String) : String := ⟨s.data.map lower_char⟩

/-- The callsign_norm column of flight_core.py:
fillna("").str.strip().str.upper(). -/
def callsign_norm (cs : Option String) : String :=
  py_upper (py_strip (cs.getD ""))

/-- The descending-by-last_contact comparison used by
sort_values("last_contact", ascending=False); pandas places missing keys
last (na_position defaults to "last"). -/
def by_recency (a b : RawState) : Bool :=
  match a.last_contact, b.last_contact with
  | some x, some y => y ≤ x
  | some _, none => true
  | none, some _ => false
  | none, none => true

/-- select_candidates of flight_core.py: keep rows with a non-empty
normalized callsign, sort by last_contact descending, take the first
max_list rows. The source sorts with the pandas default quicksort, whose
order on ties is not specified; mergeSort realizes one admissible order. -/
def select_candidates (states : List RawState) (max_list : Nat) : List RawState :=
  (((states.filter fun s => callsign_norm s.callsign != "").mergeSort by_recency).take max_list)

/-- RegionBox of flight_core.py. -/
structure RegionBox where
  name : String
  lat_min : ℚ
  lat_max : ℚ
  lon_min : ℚ
  lon_max : ℚ
deriving DecidableEq

/-- REGION_BOXES of flight_core.py, in source order. -/
def REGION_BOXES : List RegionBox := [
  ⟨"日本付近", 20, 50, 120, 150⟩,
  ⟨"韓国付近", 33, mkRat 79 2, 124, 132⟩,     -- 39.5 = 79/2
  ⟨"中国東部付近", 20, 42, 105, 125⟩,
  ⟨"ドイツ付近", 47, 56, 5, 16⟩,
  ⟨"フランス付近", 42, mkRat 103 2, -5, 8⟩,  -- 51.5 = 103/2
  ⟨"イギリス付近", 49, 61, -10, 2⟩,
  ⟨"ヨーロッパ西部付近", 35, 70, -10, 30⟩,
  ⟨"北米西海岸付近", 30, 55, -135, -110⟩,
  ⟨"北米中部付近", 30, 55, -110, -85⟩,
  ⟨"北米東海岸付近", 30, 50, -85, -60⟩,
  ⟨"中東付近", 15, 40, 30, 60⟩,
  ⟨"東南アジア付近", -10, 25, 95, 130⟩,
  ⟨"オーストラリア付近", -45, -10, 110, 155⟩]

/-- The loop condition of rough_location_from_latlon:
box.lat_min <= lat <= box.lat_max and box.lon_min <= lon <= box.lon_max. -/
def box_contains (b : RegionBox) (lat lon : ℚ) : Bool :=
  decide (b.lat_min ≤ lat ∧ lat ≤ b.lat_max ∧ b.lon_min ≤ lon ∧ lon ≤ b.lon_max)

/-- Python truthiness of an optional string: None and "" are falsy. -/
def truthy (s : Option String) : Bool :=
  match s with
  | some c => c != ""
  | none => false

/-- One-decimal formatting used by the coordinate fallback string
(Python f-string :.1f, up to the rounding rule at exact ties). -/
def fmt1 (x : ℚ) : String :=
  let n : Int := round (10 * x)
  (if n < 0 then "-" else "") ++ toString (n.natAbs / 10) ++ "." ++ toString (n.natAbs % 10)

/-- The coordinate fallback string of rough_location_from_latlon. -/
def coord_text (lat lon : ℚ) : String :=
  "緯度 " ++ fmt1 lat ++ "°, 経度 " ++ fmt1 lon ++ "° 付近"

/-- rough_location_from_latlon of flight_core.py, translated branch by
branch: missing input, then the first matching region box, then the
longitude-band ocean/continent fallback split by latitude hemisphere, then
the truthy origin-country fallback, then the coordinate string. -/
def rough_location_from_latlon (lat? lon? : Option ℚ) (origin_country : Option String) : String :=
  match lat?, lon? with
  | some lat, some lon =>
    match REGION_BOXES.find? (fun b => box_contains b lat lon) with
    | some box => box.name
    | none =>
      if lon < -140 ∨ lon > 160 then (if 0 ≤ lat then "北太平洋上空" else "南太平洋上空")
      else if -140 ≤ lon ∧ lon < -30 then (if 0 ≤ lat then "北アメリカ大陸付近" else "南アメリカ大陸付近")
      else if -30 ≤ lon ∧ lon < 60 then (if 0 ≤ lat then "ヨーロッパ〜北アフリカ付近" else "南アフリカ付近")
      else if 60 ≤ lon ∧ lon ≤ 150 then (if 0 ≤ lat then "アジア大陸付近" else "インド洋〜オセアニア付近")
      else if truthy origin_country then (origin_country.getD "") ++ " 付近"
      else coord_text lat lon
  | _, _ => "位置不明"

/-- Tier 2 of the specification's classify contract: the first region box,
in table order, containing the point. -/
def first_box (lat lon : ℚ) : Option RegionBox :=
  REGION_BOXES.find? (fun b => box_contains b lat lon)

/-- Tier 3 of the specification's classify contract: eight fixed
ocean/continent strings chosen by longitude band and the sign of the
latitude, undefined on the band gap. -/
def ocean_band (lat lon : ℚ) : Option String :=
  if lon < -140 ∨ lon > 160 then some (if 0 ≤ lat then "北太平洋上空" else "南太平洋上空")
  else if -140 ≤ lon ∧ lon < -30 then some (if 0 ≤ lat then "北アメリカ大陸付近" else "南アメリカ大陸付近")
  else if -30 ≤ lon ∧ lon < 60 then some (if 0 ≤ lat then "ヨーロッパ〜北アフリカ付近" else "南アフリカ付近")
  else if 60 ≤ lon ∧ lon ≤ 150 then some (if 0 ≤ lat then "アジア大陸付近" else "インド洋〜オセアニア付近")
  else none

/-- Modelled from the spec's classify contract (section 4.1): the four-tier
fallback written as the specification phrases it, to be compared with the
source translation rough_location_from_latlon. -/
def classify_spec (lat? lon? : Option ℚ) (oc : Option String) : String :=
  match lat?, lon? with
  | some lat, some lon =>
    match first_box lat lon with
    | some b => b.name
    | none =>
      match ocean_band lat lon with
      | some s => s
      | none => if truthy oc then (oc.getD "") ++ " 付近" else coord_text lat lon
  | _, _ => "位置不明"

/-- make_simple_comment of flight_core.py: the altitude in meters is
converted to feet with factor 3.28084 and bucketed; the velocity and
vertical-rate arguments are accepted but never used. -/
def make_simple_comment (alt : Option ℚ) (vel vert_rate : Option ℚ) : String :=
  match alt with
  | none => "高度情報がないため、詳しい景色は推定できません。"
  | some a =>
    let alt_ft := a * (328084 / 100000 : ℚ)
    if alt_ft < 1000 then "滑走路付近か、離着陸の直前・直後の高度かもしれません。"
    else if alt_ft < 10000 then "まだ上昇中で、地形や街並みがかなりはっきり見えていそうです。"
    else if alt_ft < 25000 then "雲の合間から、地上の街や山が時々見えるような高度を飛行中だと思われます。"
    else "雲の上を巡航中で、窓の外は青い空と雲のじゅうたんが広がっていそうです。"

/-- Values a timestamp cell handed to ts_to_str can hold: a JSON null, a
pandas NaN, an integer epoch, or an arbitrary string. -/
inductive TsVal where
  | null
  | nan
  | int (n : Int)
  | str (s : String)
deriving DecidableEq

/-- Lift an optional integer feed cell into a TsVal. -/
def tsOfOptInt (o : Option Int) : TsVal :=
  match o with
  | some n => TsVal.int n
  | none => TsVal.null

/-- Decimal digit test. -/
def digit? (c : Char) : Bool := '0' ≤ c && c ≤ '9'

/-- Value of a non-empty all-digit character list. -/
def parse_nat_chars (l : List Char) : Option Nat :=
  if l ≠ [] ∧ l.all digit? then
    some (l.foldl (fun a c => a * 10 + (c.toNat - 48)) 0)
  else none

/-- Python int() applied to a string: optional surrounding whitespace, an
optional sign, then decimal digits (digit-group underscores are not
modelled; the feed never produces them). -/
def parse_int_text (s : String) : Option Int :=
  match trim_chars s.data with
  | '-' :: rest => (parse_nat_chars rest).map (fun n => -(n : Int))
  | '+' :: rest => (parse_nat_chars rest).map (fun n => (n : Int))
  | t => (parse_nat_chars t).map (fun n => (n : Int))

/-- Number of whole days since the Unix epoch (floor division, as
datetime.fromtimestamp computes in UTC). -/
def epoch_days (n : Int) : Int := Int.fdiv n 86400

/-- Seconds elapsed since midnight of the timestamp's UTC day. -/
def secs_of_day (n : Int) : Int := n - 86400 * epoch_days n

/-- Hour component of the UTC time. -/
def utc_hour (n : Int) : Int := Int.fdiv (secs_of_day n) 3600

/-- Minute component of the UTC time. -/
def utc_minute (n : Int) : Int := Int.fdiv (secs_of_day n - 3600 * utc_hour n) 60

/-- Second component of the UTC time. -/
def utc_second (n : Int) : Int := secs_of_day n - 3600 * utc_hour n - 60 * utc_minute n

/-- Civil (year, month, day) from a count of days since the Unix epoch, the
standard era-based conversion used by every proleptic-Gregorian library. -/
def civil_from_days (z0 : Int) : Int × Int × Int :=
  let z := z0 + 719468
  let era := Int.fdiv z 146097
  let doe := z - era * 146097
  let yoe := Int.fdiv (doe - Int.fdiv doe 1460 + Int.fdiv doe 36524 - Int.fdiv doe 146096) 365
  let y := yoe + era * 400
  let doy := doe - (365 * yoe + Int.fdiv yoe 4 - Int.fdiv yoe 100)
  let mp := Int.fdiv (5 * doy + 2) 153
  let d := doy - Int.fdiv (153 * mp + 2) 5 + 1
  let m := mp + (if mp < 10 then 3 else -9)
  (y + (if m ≤ 2 then 1 else 0), m, d)

/-- Year component of the UTC date. -/
def utc_year (n : Int) : Int := (civil_from_days (epoch_days n)).1

/-- Month component of the UTC date. -/
def utc_month (n : Int) : Int := (civil_from_days (epoch_days n)).2.1

/-- Day-of-month component of the UTC date. -/
def utc_day (n : Int) : Int := (civil_from_days (epoch_days n)).2.2

/-- Two-digit zero padding (strftime %m %d %H %M %S). -/
def pad2 (n : Int) : String :=
  if 0 ≤ n ∧ n < 10 then "0" ++ toString n else toString n

/-- Four-digit zero padding for the year (strftime %Y; years in the feed's
range always have four digits). -/
def pad4 (n : Int) : String :=
  if 0 ≤ n ∧ n < 10 then "000" ++ toString n
  else if 0 ≤ n ∧ n < 100 then "00" ++ toString n
  else if 0 ≤ n ∧ n < 1000 then "0" ++ toString n
  else toString n

/-- strftime("%Y-%m-%d %H:%M:%S UTC") of the UTC datetime of epoch n. -/
def fmt_utc (n : Int) : String :=
  pad4 (utc_year n) ++ "-" ++ pad2 (utc_month n) ++ "-" ++ pad2 (utc_day n) ++ " " ++
    pad2 (utc_hour n) ++ ":" ++ pad2 (utc_minute n) ++ ":" ++ pad2 (utc_second n) ++ " UTC"

/-- Smallest epoch datetime.fromtimestamp(_, tz=utc) accepts (year 1). -/
def TS_MIN : Int := -62135596800

/-- Largest epoch datetime.fromtimestamp(_, tz=utc) accepts (year 9999). -/
def TS_MAX : Int := 253402300799

/-- ts_to_str of flight_core.py: "N/A" for a missing cell (None or NaN);
otherwise int(ts) then datetime.fromtimestamp(..., tz=utc).strftime(...),
and on any exception inside the try block - an unparseable string or an
epoch outside the datetime range - the fallback str(ts). -/
def ts_to_str (ts : TsVal) : String :=
  match ts with
  | .null => "N/A"
  | .nan => "N/A"
  | .int n => if n < TS_MIN ∨ TS_MAX < n then toString n else fmt_utc n
  | .str s =>
    match parse_int_text s with
    | some n => if n < TS_MIN ∨ TS_MAX < n then s else fmt_utc n
    | none => s

/-- The altitude-resolution line of get_latest_state (flight_core.py):
alt_use = geo_alt if pd.notna(geo_alt) else baro_alt. -/
def resolve_altitude (geo baro : Option ℚ) : Option ℚ :=
  match geo with
  | some g => some g
  | none => baro

/-- One element of get_plane_list's result (flight_core.py). -/
structure PlaneListItem where
  callsign : String
  origin_country : String
  icao24 : Option String
  latitude : Option ℚ
  longitude : Option ℚ
  on_ground : Bool
  rough_location : String
  last_contact : String
deriving DecidableEq

/-- The loop body of get_plane_list (flight_core.py). -/
def mk_list_item (row : RawState) : PlaneListItem :=
  { callsign := callsign_norm row.callsign
    origin_country := row.origin_country
    icao24 := row.icao24
    latitude := row.latitude
    longitude := row.longitude
    on_ground := row.on_ground.getD false
    rough_location := rough_location_from_latlon row.latitude row.longitude (some row.origin_country)
    last_contact := ts_to_str (tsOfOptInt row.last_contact) }

/-- get_plane_list of flight_core.py, with the fetched frame passed as an
argument: empty frame gives the empty list, otherwise the selected
candidates projected row by row. -/
def get_plane_list (states : List RawState) : List PlaneListItem :=
  if states.isEmpty then []
  else (select_candidates states MAX_LIST).map mk_list_item

/-- The result record of get_latest_state (flight_core.py). -/
structure TrackState where
  callsign : String
  icao24 : Option String
  origin_country : String
  latitude : Option ℚ
  longitude : Option ℚ
  baro_altitude : Option ℚ
  geo_altitude : Option ℚ
  velocity : Option ℚ
  heading : Option ℚ
  vertical_rate : Option ℚ
  on_ground : Bool
  time_position : String
  last_contact : String
  location_text : String
  comment_text : String
deriving DecidableEq

/-- The projection of the matched row in get_latest_state (flight_core.py). -/
def mk_track_state (row : RawState) : TrackState :=
  { callsign := callsign_norm row.callsign
    icao24 := row.icao24
    origin_country := row.origin_country
    latitude := row.latitude
    longitude := row.longitude
    baro_altitude := row.baro_altitude
    geo_altitude := row.geo_altitude
    velocity := row.velocity
    heading := row.heading
    vertical_rate := row.vertical_rate
    on_ground := row.on_ground.getD false
    time_position := ts_to_str (tsOfOptInt row.time_position)
    last_contact := ts_to_str (tsOfOptInt row.last_contact)
    location_text := rough_location_from_latlon row.latitude row.longitude (some row.origin_country)
    comment_text := make_simple_comment (resolve_altitude row.geo_altitude row.baro_altitude)
      row.velocity row.vertical_rate }

/-- get_latest_state of flight_core.py, with the fetched frame passed as an
argument: normalize the requested callsign, refuse an empty one, filter the
frame on callsign_norm equality, take the first matching row (iloc[0] in
feed order), and project it; None when nothing matches. -/
def get_latest_state (states : List RawState) (callsign : String) : Option TrackState :=
  if py_upper (py_strip callsign) = "" then none
  else
    match (states.filter fun s => callsign_norm s.callsign == py_upper (py_strip callsign)).head? with
    | none => none
    | some row => some (mk_track_state row)

/-- One element of the /planes response body (src/app.py to_plane_list). -/
structure Plane where
  icao24 : Option String
  callsign : String
  origin_country : String
  time_position : Option Int
  last_contact : Option Int
  longitude : Option ℚ
  latitude : Option ℚ
  baro_altitude : Option ℚ
  geo_altitude : Option ℚ
  on_ground : Option Bool
  velocity : Option ℚ
  heading : Option ℚ
  vertical_rate : Option ℚ
deriving DecidableEq

/-- The dict appended by to_plane_list (src/app.py); the callsign is the
trimmed raw value, not uppercased, and on_ground keeps null as null. -/
def mk_plane (s : RawState) : Plane :=
  { icao24 := s.icao24
    callsign := py_strip (s.callsign.getD "")
    origin_country := s.origin_country
    time_position := s.time_position
    last_contact := s.last_contact
    longitude := s.longitude
    latitude := s.latitude
    baro_altitude := s.baro_altitude
    geo_altitude := s.geo_altitude
    on_ground := s.on_ground
    velocity := s.velocity
    heading := s.heading
    vertical_rate := s.vertical_rate }

/-- to_plane_list of src/app.py: walk the states in feed order, skip rows
whose trimmed callsign is empty, append the projection, and break once the
result holds limit entries; no sorting happens. -/
def to_plane_list : List RawState → Nat → List Plane
  | [], _ => []
  | s :: rest, limit =>
    if py_strip (s.callsign.getD "") = "" then to_plane_list rest limit
    else if limit ≤ 1 then [mk_plane s]
    else mk_plane s :: to_plane_list rest (limit - 1)

/-- The dict returned by find_by_icao24 (src/app.py); it carries no
geo_altitude field. -/
structure TrackHit where
  icao24 : Option String
  callsign : String
  origin_country : String
  time_position : Option Int
  last_contact : Option Int
  longitude : Option ℚ
  latitude : Option ℚ
  baro_altitude : Option ℚ
  on_ground : Option Bool
  velocity : Option ℚ
  heading : Option ℚ
  vertical_rate : Option ℚ
deriving DecidableEq

/-- The projection of the matched row in find_by_icao24 (src/app.py). -/
def mk_track_hit (s : RawState) : TrackHit :=
  { icao24 := s.icao24
    callsign := py_strip (s.callsign.getD "")
    origin_country := s.origin_country
    time_position := s.time_position
    last_contact := s.last_contact
    longitude := s.longitude
    latitude := s.latitude
    baro_altitude := s.baro_altitude
    on_ground := s.on_ground
    velocity := s.velocity
    heading := s.heading
    vertical_rate := s.vertical_rate }

/-- find_by_icao24 of src/app.py: lowercase the trimmed query, refuse an
empty one, scan the states linearly and return the projection of the first
row whose lowercased icao24 equals the query; None when nothing matches. -/
def find_by_icao24 (states : List RawState) (icao24 : Option String) : Option TrackHit :=
  if py_lower (py_strip (icao24.getD "")) = "" then none
  else (states.find? fun s =>
    py_lower (s.icao24.getD "") == py_lower (py_strip (icao24.getD ""))).map mk_track_hit

/-- Fixture: a row with callsign " AAA1 " and last_contact 50. -/
def st_lc50 : RawState :=
  { icao24 := some "aaa111", callsign := some " AAA1 ", origin_country := "Germany",
    time_position := none, last_contact := some 50, longitude := some 10,
    latitude := some 50, baro_altitude := some 9000, on_ground := some false,
    velocity := some 220, heading := some 90, vertical_rate := some 0,
    geo_altitude := some 9100 }

/-- Fixture: a row with callsign "BB2" and last_contact 200, listed after
st_lc50 in the feed. -/
def st_lc200 : RawState :=
  { icao24 := some "bb2222", callsign := some "BB2", origin_country := "France",
    time_position := some 199, last_contact := some 200, longitude := some 2,
    latitude := some 48, baro_altitude := some 11000, on_ground := some false,
    velocity := some 240, heading := some 180, vertical_rate := some 0,
    geo_altitude := some 11100 }

/-- Fixture: a row whose stored icao24 is the lowercase "4952ca". -/
def rec_4952ca : RawState :=
  { icao24 := some "4952ca", callsign := some "JAL123", origin_country := "Japan",
    time_position := some 1700000000, last_contact := some 1700000000,
    longitude := some 139, latitude := some 35, baro_altitude := some 12000,
    on_ground := some false, velocity := some 250, heading := some 45,
    vertical_rate := some 0, geo_altitude := some 12100 }

/-- Fixture: a row with a null geometric altitude and barometric 3000. -/
def row_geo_null : RawState :=
  { icao24 := some "abc001", callsign := some "ANA1", origin_country := "Japan",
    time_position := none, last_contact := some 1700000000, longitude := some 139,
    latitude := some 35, baro_altitude := some 3000, on_ground := some false,
    velocity := some 200, heading := some 10, vertical_rate := some 1,
    geo_altitude := none }

/-- Fixture: a row with geometric altitude 5000 and barometric 4800. -/
def row_geo_5000 : RawState :=
  { icao24 := some "abc002", callsign := some "ANA2", origin_country := "Japan",
    time_position := none, last_contact := some 1700000001, longitude := some 140,
    latitude := some 36, baro_altitude := some 4800, on_ground := some false,
    velocity := some 210, heading := some 20, vertical_rate := some 0,
    geo_altitude := some 5000 }

/-- The by_recency comparison is transitive. -/
theorem by_recency_trans (a b c : RawState) (hab : by_recency a b) (hbc : by_recency b c) :
    by_recency a c := by
  unfold by_recency at *
  rcases ha : a.last_contact with _ | x <;> rcases hb : b.last_contact with _ | y <;>
    rcases hc : c.last_contact with _ | z <;>
    simp only [ha, hb, hc, decide_eq_true_eq, Bool.false_eq_true] at hab hbc ⊢ <;>
    first
    | rfl
    | exact hab.elim
    | exact hbc.elim
    | omega

/-- The by_recency comparison is total. -/
theorem by_recency_total (a b : RawState) : by_recency a b || by_recency b a := by
  unfold by_recency
  rcases ha : a.last_contact with _ | x <;> rcases hb : b.last_contact with _ | y <;>
    simp only [ha, hb, Bool.or_eq_true, decide_eq_true_eq] <;>
    first
    | simp
    | omega

/-- to_plane_list with a positive limit is the filtered feed, truncated and
projected, in original order. -/
theorem to_plane_list_eq_filter_take (states : List RawState) :
    ∀ limit, 1 ≤ limit →
      to_plane_list states limit =
        ((states.filter fun s => py_strip (s.callsign.getD "") != "").take limit).map mk_plane := by
  induction states with
  | nil => intro limit _; simp [to_plane_list]
  | cons s rest ih =>
    intro limit hl
    by_cases hc : py_strip (s.callsign.getD "") = ""
    · simp [to_plane_list, hc, List.filter_cons, ih limit hl]
    · obtain ⟨k, rfl⟩ : ∃ k, limit = k + 1 := ⟨limit - 1, by omega⟩
      by_cases h1 : k = 0
      · subst h1
        simp [to_plane_list, hc, List.filter_cons]
      · have hnle : ¬ k + 1 ≤ 1 := by omega
        simp [to_plane_list, hc, hnle, List.filter_cons, ih k (by omega)]

/-- C1: for every execution of the serverless state source in which the
live network fetch fails - request exception, timeout, HTTP 429, or any
other HTTP error - fetch_opensky_or_snapshot falls through to the on-disk
snapshot and returns the snapshot payload tagged with provenance
"snapshot". -/
theorem fetch_failure_falls_back_to_snapshot (env : LambdaEnv) (e : FetchErr)
    (d : Payload) (hlive : env.live = FetchOutcome.fail e)
    (hsnap : env.snapshot = some d) :
    fetch_opensky_or_snapshot env = (d, "snapshot") := by
  unfold fetch_opensky_or_snapshot
  cases hf : env.force_snapshot <;> simp [hf, hlive, hsnap, load_snapshot]

/-- C1 witness: a concrete run whose live fetch is rate limited and whose
snapshot file holds a payload returns that payload tagged "snapshot". -/
theorem fetch_failure_falls_back_to_snapshot_witness :
    fetch_opensky_or_snapshot
        ⟨false, some ⟨some 1700000000, [rec_4952ca]⟩, FetchOutcome.fail FetchErr.http429⟩
      = (⟨some 1700000000, [rec_4952ca]⟩, "snapshot") :=
  fetch_failure_falls_back_to_snapshot _ FetchErr.http429 _ rfl rfl

/-- C2 counterexample: with the live fetch failing on HTTP 429 and no
snapshot file, the serverless state source does not propagate a failure; it
returns the synthesized empty payload with a null time, tagged with the
normal provenance "snapshot", indistinguishable in shape from valid data. -/
theorem no_snapshot_fabricates_empty_payload :
    fetch_opensky_or_snapshot ⟨false, none, FetchOutcome.fail FetchErr.http429⟩
      = ({ time := none, states := [] }, "snapshot") := rfl

/-- C2 amended: if the live fetch fails and no snapshot file exists, the
serverless state source returns the fabricated empty payload tagged
"snapshot", and the flight_core pipeline returns an empty list
(get_plane_list) or a not-found outcome (get_latest_state); no explicit
"data unavailable" failure is propagated. -/
theorem no_snapshot_yields_empty_data (e : FetchErr) :
    fetch_opensky_or_snapshot ⟨false, none, FetchOutcome.fail e⟩
      = ({ time := none, states := [] }, "snapshot") ∧
    get_plane_list (fetch_opensky_states ⟨false, none, FetchOutcome.fail e⟩) = [] ∧
    (∀ cs, get_latest_state (fetch_opensky_states ⟨false, none, FetchOutcome.fail e⟩) cs
      = none) := by
  refine ⟨rfl, rfl, fun cs => ?_⟩
  unfold get_latest_state fetch_opensky_states raw_states_json
  simp

/-- C3: make_simple_comment converts the altitude from meters to feet with
factor 3.28084 and buckets it at 1000, 10000 and 25000 feet (each lower
bound inclusive), and a missing altitude yields the unavailable string
regardless of the velocity and vertical-rate arguments. -/
theorem make_simple_comment_buckets (a : ℚ) (vel vr : Option ℚ) :
    (make_simple_comment none vel vr = "高度情報がないため、詳しい景色は推定できません。") ∧
    (a * (3.28084 : ℚ) < 1000 →
      make_simple_comment (some a) vel vr = "滑走路付近か、離着陸の直前・直後の高度かもしれません。") ∧
    (1000 ≤ a * (3.28084 : ℚ) → a * (3.28084 : ℚ) < 10000 →
      make_simple_comment (some a) vel vr = "まだ上昇中で、地形や街並みがかなりはっきり見えていそうです。") ∧
    (10000 ≤ a * (3.28084 : ℚ) → a * (3.28084 : ℚ) < 25000 →
      make_simple_comment (some a) vel vr = "雲の合間から、地上の街や山が時々見えるような高度を飛行中だと思われます。") ∧
    (25000 ≤ a * (3.28084 : ℚ) →
      make_simple_comment (some a) vel vr = "雲の上を巡航中で、窓の外は青い空と雲のじゅうたんが広がっていそうです。") := by
  have hfac : (328084 / 100000 : ℚ) = (3.28084 : ℚ) := by norm_num
  refine ⟨rfl, ?_, ?_, ?_, ?_⟩ <;> intro h <;> try intro h2
  all_goals
    simp only [make_simple_comment, hfac]
    split_ifs <;> first | rfl | linarith

/-- C3 witness: concrete altitudes landing in each bucket, including the
inclusive boundaries translated back to meters-side inputs. -/
theorem make_simple_comment_buckets_witness :
    make_simple_comment (some 100) none none = "滑走路付近か、離着陸の直前・直後の高度かもしれません。" ∧
    make_simple_comment (some 1000) none none = "まだ上昇中で、地形や街並みがかなりはっきり見えていそうです。" ∧
    make_simple_comment (some 5000) none none = "雲の合間から、地上の街や山が時々見えるような高度を飛行中だと思われます。" ∧
    make_simple_comment (some 10000) none none = "雲の上を巡航中で、窓の外は青い空と雲のじゅうたんが広がっていそうです。" :=
  ⟨(make_simple_comment_buckets 100 none none).2.1 (by norm_num),
   (make_simple_comment_buckets 1000 none none).2.2.1 (by norm_num) (by norm_num),
   (make_simple_comment_buckets 5000 none none).2.2.2.1 (by norm_num) (by norm_num),
   (make_simple_comment_buckets 10000 none none).2.2.2.2 (by norm_num)⟩

/-- C7: the resolved altitude used for presentation is the geometric
altitude whenever it is present, and the barometric altitude otherwise;
in particular geometric null with barometric 3000 resolves to 3000, and
geometric 5000 with barometric 4800 resolves to 5000, and the track
projection builds its comment from exactly that resolved altitude. -/
theorem altitude_resolution :
    (∀ baro : Option ℚ, resolve_altitude none baro = baro) ∧
    (∀ geo baro : ℚ, resolve_altitude (some geo) (some baro) = some geo) ∧
    resolve_altitude none (some 3000) = some 3000 ∧
    resolve_altitude (some 5000) (some 4800) = some 5000 ∧
    (mk_track_state row_geo_null).comment_text
      = make_simple_comment (some 3000) (some 200) (some 1) ∧
    (mk_track_state row_geo_5000).comment_text
      = make_simple_comment (some 5000) (some 210) (some 0) :=
  ⟨fun _ => rfl, fun _ _ => rfl, rfl, rfl, rfl, rfl⟩

/-- C4 counterexample: the serverless variant (the one with maxCount 200)
does not sort at all. With two valid records carrying last_contact 50 and
200 in that feed order, to_plane_list returns them still in feed order -
ascending, not last_contact-descending as the claim states. -/
theorem to_plane_list_not_sorted :
    (to_plane_list [st_lc50, st_lc200] 200).map (fun p => p.last_contact)
      = [some 50, some 200] ∧ (50 : Int) < 200 := by
  constructor
  · decide
  · decide

/-- C4 amended: select_candidates (flight_core, default maxCount 30) drops
records whose normalized callsign is empty, returns records of the input
sorted by last_contact descending (missing keys last; the pandas default
quicksort leaves the order of ties unspecified), and yields at most
max_list records; the serverless variant's to_plane_list instead keeps the
first 200 records with a non-empty trimmed callsign in original feed
order, without sorting. -/
theorem select_candidates_spec (states : List RawState) (max_list limit : Nat)
    (hl : 1 ≤ limit) :
    (select_candidates states max_list).length ≤ max_list ∧
    (∀ s ∈ select_candidates states max_list,
      callsign_norm s.callsign ≠ "" ∧ s ∈ states) ∧
    (select_candidates states max_list).Pairwise (fun a b => by_recency a b = true) ∧
    to_plane_list states limit =
      ((states.filter fun s => py_strip (s.callsign.getD "") != "").take limit).map mk_plane := by
  refine ⟨?_, ?_, ?_, to_plane_list_eq_filter_take states limit hl⟩
  · simpa [select_candidates] using
      Nat.le_trans (Nat.le_of_eq (List.length_take _ _)) (Nat.min_le_left _ _)
  · intro s hs
    have h1 : s ∈ (states.filter fun s => callsign_norm s.callsign != "").mergeSort by_recency :=
      List.mem_of_mem_take hs
    rw [List.mem_mergeSort] at h1
    have h2 := List.mem_filter.mp h1
    exact ⟨by simpa using h2.2, h2.1⟩
  · exact ((List.sorted_mergeSort by_recency_trans
      by_recency_total _).sublist (List.take_sublist _ _))

/-- C4 amended witness: the concrete two-record feed instantiates every
part of the amended statement. -/
theorem select_candidates_spec_witness :
    (select_candidates [st_lc50, st_lc200] 30).length ≤ 30 ∧
    (∀ s ∈ select_candidates [st_lc50, st_lc200] 30,
      callsign_norm s.callsign ≠ "" ∧ s ∈ [st_lc50, st_lc200]) ∧
    (select_candidates [st_lc50, st_lc200] 30).Pairwise (fun a b => by_recency a b = true) ∧
    to_plane_list [st_lc50, st_lc200] 200 =
      (([st_lc50, st_lc200].filter fun s => py_strip (s.callsign.getD "") != "").take 200).map
        mk_plane :=
  select_candidates_spec [st_lc50, st_lc200] 30 200 (by decide)

/-- C9 counterexample: a timestamp cell holding the unparseable string
"abc" is present but not parseable as an integer epoch, yet ts_to_str
returns str(ts) - the string itself - and not the "N/A" sentinel. -/
theorem ts_to_str_unparseable_not_na :
    ts_to_str (TsVal.str "abc") = "abc" ∧ "abc" ≠ "N/A" := ⟨by decide, by decide⟩

/-- C9 amended: ts_to_str returns "N/A" exactly when the timestamp is
absent (null or NaN); a timestamp parseable as an integer epoch in the
supported range is formatted as the UTC string "YYYY-MM-DD HH:MM:SS UTC";
a present but unparseable timestamp is returned as its own string form
str(ts), not as "N/A". -/
theorem ts_to_str_spec :
    (ts_to_str TsVal.null = "N/A") ∧
    (ts_to_str TsVal.nan = "N/A") ∧
    (∀ n : Int, 0 ≤ n → n ≤ TS_MAX →
      ts_to_str (TsVal.int n) =
        pad4 (utc_year n) ++ "-" ++ pad2 (utc_month n) ++ "-" ++ pad2 (utc_day n) ++ " " ++
          pad2 (utc_hour n) ++ ":" ++ pad2 (utc_minute n) ++ ":" ++ pad2 (utc_second n)
          ++ " UTC") ∧
    (∀ s, parse_int_text s = none → ts_to_str (TsVal.str s) = s) ∧
    (∀ s n, parse_int_text s = some n → 0 ≤ n → n ≤ TS_MAX →
      ts_to_str (TsVal.str s) = fmt_utc n) ∧
    (fmt_utc 0 = "1970-01-01 00:00:00 UTC") ∧
    (fmt_utc 1700000000 = "2023-11-14 22:13:20 UTC") := by
  refine ⟨rfl, rfl, ?_, ?_, ?_, by decide, by decide⟩
  · intro n h0 hmax
    have hrange : ¬(n < TS_MIN ∨ TS_MAX < n) := by
      simp only [TS_MIN, TS_MAX] at *; omega
    simp only [ts_to_str, hrange, if_false]
    rfl
  · intro s hp
    simp only [ts_to_str, hp]
  · intro s n hp h0 hmax
    have hrange : ¬(n < TS_MIN ∨ TS_MAX < n) := by
      simp only [TS_MIN, TS_MAX] at *; omega
    simp only [ts_to_str, hp, hrange, if_false]

/-- C9 witness: the epoch 1700000000 is formatted as the expected UTC
string. -/
theorem ts_to_str_spec_witness :
    ts_to_str (TsVal.int 1700000000) = "2023-11-14 22:13:20 UTC" := by
  have h := ts_to_str_spec.2.2.1 1700000000 (by decide) (by decide)
  rw [h]; decide

/-- C5: classify is a pure function of its arguments that falls through
exactly the four specified tiers in order: missing lat or lon gives the
fixed unknown-location string; otherwise the first matching region box's
name; otherwise the longitude-band/hemisphere ocean-continent string;
otherwise "near {country}" for a truthy country; otherwise the
one-decimal coordinate string. The source translation and the tier-by-tier
specification reading agree on every input. -/
theorem classify_matches_spec (lat? lon? : Option ℚ) (oc : Option String) :
    rough_location_from_latlon lat? lon? oc = classify_spec lat? lon? oc := by
  cases lat? with
  | none => cases lon? <;> rfl
  | some lat =>
    cases lon? with
    | none => rfl
    | some lon =>
      cases hfb : REGION_BOXES.find? (fun b => box_contains b lat lon) with
      | some box =>
        simp only [rough_location_from_latlon, classify_spec, first_box, hfb]
      | none =>
        simp only [rough_location_from_latlon, classify_spec, first_box, ocean_band, hfb]
        split_ifs <;> rfl

/-- C6: region box matching is order-sensitive: whenever the ordered table
has a matching box, the classifier returns the first matching box's name;
the point (35, 127) lies inside both the Japan box and the Korea box, and
the first-listed Japan box wins. -/
theorem region_box_order_sensitive :
    (∀ (lat lon : ℚ) (oc : Option String) (b : RegionBox), first_box lat lon = some b →
      rough_location_from_latlon (some lat) (some lon) oc = b.name) ∧
    (∀ (lat lon : ℚ) (b : RegionBox), first_box lat lon = some b →
      box_contains b lat lon = true ∧
      ∃ pre post, REGION_BOXES = pre ++ b :: post ∧
        ∀ b2 ∈ pre, box_contains b2 lat lon = false) ∧
    (box_contains ⟨"日本付近", 20, 50, 120, 150⟩ 35 127 = true ∧
     box_contains ⟨"韓国付近", 33, mkRat 79 2, 124, 132⟩ 35 127 = true ∧
     first_box 35 127 = some ⟨"日本付近", 20, 50, 120, 150⟩ ∧
     rough_location_from_latlon (some 35) (some 127) none = "日本付近") := by
  refine ⟨?_, ?_, by decide, by decide, by decide, by decide⟩
  · intro lat lon oc b h
    unfold first_box at h
    simp only [rough_location_from_latlon, h]
  · intro lat lon b h
    unfold first_box at h
    obtain ⟨hp, pre, post, heq, hpre⟩ := List.find?_eq_some.mp h
    exact ⟨hp, pre, post, heq, fun b2 hb2 => by simpa using hpre b2 hb2⟩

/-- C6 witness: the overlap point (35, 127) instantiates the first-match
statement with the Japan box. -/
theorem region_box_order_sensitive_witness :
    rough_location_from_latlon (some 35) (some 127) none
      = (⟨"日本付近", (20 : ℚ), 50, 120, 150⟩ : RegionBox).name :=
  region_box_order_sensitive.1 35 127 none _ (by decide)

/-- C8: lookup by identifier is exact but case-insensitive (the result
depends only on the lowercased trimmed icao24 query, and the uppercase
query "4952CA" finds the stored lowercase "4952ca"; callsign lookup
depends only on the trimmed uppercased callsign), scans linearly and
returns the first match in feed order when the identifier is duplicated,
and reports no match with an explicit None outcome. -/
theorem lookup_by_identifier :
    (∀ (states : List RawState) (i j : Option String),
      py_lower (py_strip (i.getD "")) = py_lower (py_strip (j.getD "")) →
      find_by_icao24 states i = find_by_icao24 states j) ∧
    (∀ states icao s, find_by_icao24 states icao = some s →
      ∃ pre r post, states = pre ++ r :: post ∧ s = mk_track_hit r ∧
        py_lower (r.icao24.getD "") = py_lower (py_strip (icao.getD "")) ∧
        ∀ r2 ∈ pre,
          py_lower (r2.icao24.getD "") ≠ py_lower (py_strip (icao.getD ""))) ∧
    (∀ states icao,
      (∀ r ∈ states,
        py_lower (r.icao24.getD "") ≠ py_lower (py_strip (icao.getD ""))) →
      find_by_icao24 states icao = none) ∧
    find_by_icao24 [rec_4952ca] (some "4952CA") = some (mk_track_hit rec_4952ca) ∧
    (∀ (states : List RawState) (c d : String),
      py_upper (py_strip c) = py_upper (py_strip d) →
      get_latest_state states c = get_latest_state states d) ∧
    (∀ states cs,
      (∀ r ∈ states, callsign_norm r.callsign ≠ py_upper (py_strip cs)) →
      get_latest_state states cs = none) := by
  refine ⟨?_, ?_, ?_, by decide, ?_, ?_⟩
  · intro states i j h
    unfold find_by_icao24
    rw [h]
  · intro states icao s h
    unfold find_by_icao24 at h
    split at h
    · exact absurd h (by simp)
    · obtain ⟨r, hfind, hmk⟩ := Option.map_eq_some'.mp h
      obtain ⟨hp, pre, post, heq, hpre⟩ := List.find?_eq_some.mp hfind
      exact ⟨pre, r, post, heq, hmk.symm, by simpa using hp,
        fun r2 hr2 => by simpa using hpre r2 hr2⟩
  · intro states icao hno
    unfold find_by_icao24
    split
    · rfl
    · rw [List.find?_eq_none.mpr fun x hx => by simpa using hno x hx]
      rfl
  · intro states c d h
    unfold get_latest_state
    rw [h]
  · intro states cs hno
    unfold get_latest_state
    split
    · rfl
    · rw [List.filter_eq_nil_iff.mpr fun x hx => by simpa using hno x hx]
      rfl

/-- C8 witness: concrete uppercase and lowercase queries agree on a
one-record feed storing "4952ca", and a query matching nothing yields the
explicit None outcome. -/
theorem lookup_by_identifier_witness :
    find_by_icao24 [rec_4952ca] (some "4952CA")
      = find_by_icao24 [rec_4952ca] (some "4952ca") ∧
    find_by_icao24 [rec_4952ca] (some "ZZZ999") = none :=
  ⟨lookup_by_identifier.1 [rec_4952ca] (some "4952CA") (some "4952ca") (by decide),
   lookup_by_identifier.2.2.1 [rec_4952ca] (some "ZZZ999") (by decide)⟩

/-- A string containing an ASCII space is never the Korea box label. -/
theorem ne_korea_of_space_mem {s : String} (h : ' ' ∈ s.data) : s ≠ "韓国付近" := by
  intro he
  rw [he] at h
  exact absurd h (by decide)

/-- Containment in the Korea box implies containment in the Japan box. -/
theorem korea_sub_japan (lat lon : ℚ)
    (h : box_contains ⟨"韓国付近", 33, mkRat 79 2, 124, 132⟩ lat lon = true) :
    box_contains ⟨"日本付近", 20, 50, 120, 150⟩ lat lon = true := by
  simp only [box_contains, decide_eq_true_eq] at h ⊢
  obtain ⟨h1, h2, h3, h4⟩ := h
  have hk : (mkRat 79 2 : ℚ) ≤ 50 := by decide
  refine ⟨by linarith, by linarith, by linarith, by linarith⟩

/-- C10: the classifier never returns the Korea label: the Korea box is
entirely contained in the earlier-listed Japan box, so the first-match scan
always selects the Japan box before the Korea box can match, and no other
branch of the classifier produces that exact string. -/
theorem korea_label_unreachable (lat? lon? : Option ℚ) (oc : Option String) :
    rough_location_from_latlon lat? lon? oc ≠ "韓国付近" := by
  cases lat? with
  | none =>
    cases lon? <;> exact (by decide : ("位置不明" : String) ≠ "韓国付近")
  | some lat =>
    cases lon? with
    | none => exact (by decide : ("位置不明" : String) ≠ "韓国付近")
    | some lon =>
      cases hfb : REGION_BOXES.find? (fun b => box_contains b lat lon) with
      | none =>
        simp only [rough_location_from_latlon, hfb]
        split_ifs <;>
          first
          | decide
          | (apply ne_korea_of_space_mem
             rw [String.data_append]
             exact List.mem_append_right _ (by decide))
          | (apply ne_korea_of_space_mem
             unfold coord_text
             rw [String.data_append, String.data_append, String.data_append,
               String.data_append]
             exact List.mem_append_left _ (List.mem_append_left _
               (List.mem_append_left _ (List.mem_append_left _ (by decide)))))
      | some box =>
        simp only [rough_location_from_latlon, hfb]
        intro hname
        obtain ⟨hp, pre, post, heq, hpre⟩ := List.find?_eq_some.mp hfb
        have hmem : box ∈ REGION_BOXES := by
          rw [heq]
          exact List.mem_append_right _ (List.mem_cons_self _ _)
        simp only [REGION_BOXES, List.mem_cons, List.not_mem_nil, or_false] at hmem
        rcases hmem with rfl|rfl|rfl|rfl|rfl|rfl|rfl|rfl|rfl|rfl|rfl|rfl|rfl
        all_goals try exact absurd hname (by decide)
        have hjap := korea_sub_japan lat lon hp
        cases pre with
        | nil =>
          have h0 : some (⟨"日本付近", (20 : ℚ), 50, 120, 150⟩ : RegionBox)
              = some ⟨"韓国付近", 33, mkRat 79 2, 124, 132⟩ :=
            congrArg List.head? heq
          exact absurd h0 (by decide)
        | cons a0 pre1 =>
          have h0 : some (⟨"日本付近", (20 : ℚ), 50, 120, 150⟩ : RegionBox) = some a0 :=
            congrArg List.head? heq
          have ha0 : a0 = ⟨"日本付近", 20, 50, 120, 150⟩ := (Option.some.inj h0).symm
          have hb := hpre a0 (List.mem_cons_self _ _)
          rw [ha0] at hb
          simp [hjap] at hb

end Flight
